import Mathlib

/-!
Shallow embedding of the PrimeDrive subscription/payment core
(`src/backend/main.py`, with request/response shapes from
`src/backend/models.py` and constants from `src/backend/config.py`).

Modelling conventions:
* The Supabase store is a `DB` value (lists of users, tiers and payment
  transactions); every handler threads the `DB` explicitly.
* Timestamps are `Nat` (a point on an abstract monotone clock); the
  `timedelta(days=d)` additions of the source become `+ d` on that clock.
* A `.single().execute()` select that finds no row raises in Python; a
  handler returns `(db, Except.error e)` for every raised `HTTPException`
  (and `.error .internalError` for a raised store error), keeping the store
  state it had written up to that point, exactly as the source does.
* `OrangeMoneyCallback.amount` is a Python `float` compared against the
  integer column `amount_pula`; the comparison is exact numeric equality,
  embedded with `ℚ` for the callback amount.
* Network effects of the gateway are parameters: `GatewayInit` is the
  outcome of `OrangeMoneyClient.initiate_payment`, `Transport` the outcome
  of the token fetch plus `transactionstatus` POST used by
  `OrangeMoneyClient.check_transaction_status`.
-/

/-- Transaction status column of `payment_transactions`
(`models.PaymentStatus` plus the `awaiting_verification` value written by
`confirm_payment`). -/
inductive TxnStatus where
  | pending
  | awaiting_verification
  | completed
  | failed
  | refunded
  deriving Repr, DecidableEq

/-- String stored in the `status` column, as the Python literals. -/
def TxnStatus.toName : TxnStatus → String
  | .pending => "pending"
  | .awaiting_verification => "awaiting_verification"
  | .completed => "completed"
  | .failed => "failed"
  | .refunded => "refunded"

/-- Source check `transaction["status"] in ("completed", "failed", "refunded")` —
the terminal statuses of `orange_money_webhook`'s double-processing guard. -/
def TxnStatus.isTerminal : TxnStatus → Bool
  | .completed => true
  | .failed => true
  | .refunded => true
  | _ => false

/-- Payment method string of `InitiateSubscription.payment_method`; the
source branches on `"orange_money"`, `"myzaka"`, and an else-branch for any
other string, and writes `"manual"` on gateway degradation, so `manual`
stands for every non-gateway, non-myzaka method string. -/
inductive PaymentMethod where
  | orange_money
  | myzaka
  | manual
  deriving Repr, DecidableEq

/-- Row of `subscription_tiers`. -/
structure Tier where
  id : Nat
  name : String
  price_pula : Nat
  deriving Repr, DecidableEq

/-- Row of `users` (the columns the subscription core touches). -/
structure User where
  id : Nat
  current_tier_id : Nat
  subscription_expires_at : Option Nat
  deriving Repr, DecidableEq

/-- Row of `payment_transactions` (the columns the subscription core
touches).  `orange_money_pay_url` is a column this code reads
(`initiate_subscription` line 442) but never writes. -/
structure Transaction where
  id : Nat
  user_id : Nat
  tier_id : Nat
  amount_pula : Nat
  payment_method : PaymentMethod
  transaction_reference : String
  status : TxnStatus
  orange_money_order_id : Option String
  orange_money_pay_token : Option String
  orange_money_pay_url : Option String
  orange_money_status : Option String
  orange_money_transaction_id : Option String
  user_payment_reference : Option String
  admin_notes : Option String
  completed_at : Option Nat
  deriving Repr, DecidableEq

/-- The Supabase store, restricted to the three tables the core uses. -/
structure DB where
  users : List User
  tiers : List Tier
  transactions : List Transaction
  deriving Repr, DecidableEq

/-- Raised `HTTPException`s (and raised store errors) of the handlers. -/
inductive ApiError where
  | notFound
  | badRequest
  | gatewayError
  | internalError
  deriving Repr, DecidableEq

deriving instance DecidableEq for Except

/-- Body of `models.OrangeMoneyCallback` (`amount` is a Python float). -/
structure OrangeMoneyCallback where
  order_id : String
  status : String
  transaction_id : String
  amount : ℚ
  currency : String
  deriving Repr, DecidableEq

/-- Outcome of `OrangeMoneyClient.initiate_payment`: either the gateway
responded (with optional `payment_url` and a `pay_token` defaulted to `""`),
or an `HTTPException` was raised (token failure or request failure — both
surface as `HTTPException(502)` and both are caught by the fallback). -/
inductive GatewayInit where
  | ok (payment_url : Option String) (pay_token : String)
  | unavailable
  deriving Repr, DecidableEq

/-- Outcome of the network activity inside
`OrangeMoneyClient.check_transaction_status`: `authError` is a failure of
`_get_access_token` (which raises `HTTPException(502)` and is NOT caught by
the handler's `except requests.RequestException`), `requestError` a failure
of the `transactionstatus` POST (caught; the method returns
`{"status": "UNKNOWN"}`), `ok s` a response whose `status` field is `s`. -/
inductive Transport where
  | ok (status : String)
  | requestError
  | authError
  deriving Repr, DecidableEq

/-- Embeds `OrangeMoneyClient.check_transaction_status`, returning the `status`
field of the dict it produces, or the raised `HTTPException` from
`_get_access_token`. -/
def check_transaction_status : Transport → Except ApiError String
  | .ok s => .ok s
  | .requestError => .ok "UNKNOWN"
  | .authError => .error .gatewayError

/-- Python `str.upper()` restricted to ASCII (all strings this code
uppercases are ASCII); defined over the character list so that it reduces
during kernel evaluation. -/
def strUpper (s : String) : String := String.mk (s.data.map Char.toUpper)

/-- Python `str.lower()` restricted to ASCII, same representation. -/
def strLower (s : String) : String := String.mk (s.data.map Char.toLower)

/-- Value of `settings.whatsapp_number` (default from `config.py`). -/
def whatsappNumber : String := "26777625997"

-- ----------------------------------------------------------------
-- Store access helpers (the Supabase query shapes the handlers use)
-- ----------------------------------------------------------------

/-- Query `from_("users").select(...).eq("id", uid).single()` — first row wins. -/
def getUser (db : DB) (uid : Nat) : Option User :=
  db.users.find? (fun u => u.id == uid)

/-- Tier join `subscription_tiers!current_tier_id(*)` / lookup by id. -/
def getTierById (db : DB) (tid : Nat) : Option Tier :=
  db.tiers.find? (fun t => t.id == tid)

/-- Query `from_("subscription_tiers").select("*").eq("name", name).single()`. -/
def getTierByName (db : DB) (name : String) : Option Tier :=
  db.tiers.find? (fun t => t.name == name)

/-- Query `from_("payment_transactions").select(...).eq("orange_money_order_id", oid).single()`. -/
def findTxnByOrderId (db : DB) (oid : String) : Option Transaction :=
  db.transactions.find? (fun t => t.orange_money_order_id == some oid)

/-- The duplicate-check query of `initiate_subscription`:
`.eq("user_id", uid).eq("tier_id", tid).eq("status", "pending")`, taking
`existing.data[0]`. -/
def findPendingTxn (db : DB) (uid tid : Nat) : Option Transaction :=
  db.transactions.find? (fun t =>
    t.user_id == uid && t.tier_id == tid && t.status == TxnStatus.pending)

/-- Update `from_("users").update({...}).eq("id", uid)`. -/
def updateUser (db : DB) (uid : Nat) (f : User → User) : DB :=
  { db with users := db.users.map (fun u => if u.id == uid then f u else u) }

/-- Update `from_("payment_transactions").update({...}).eq("id", tid)`. -/
def updateTxn (db : DB) (tid : Nat) (f : Transaction → Transaction) : DB :=
  { db with transactions :=
      db.transactions.map (fun t => if t.id == tid then f t else t) }

/-- Insert `from_("payment_transactions").insert(txn)`. -/
def insertTxn (db : DB) (txn : Transaction) : DB :=
  { db with transactions := db.transactions ++ [txn] }

-- ----------------------------------------------------------------
-- check_and_enforce_subscription (main.py lines 196-254)
-- ----------------------------------------------------------------

/-- Dict returned by `check_and_enforce_subscription`. -/
structure EnforceResult where
  tier : Tier
  is_active : Bool
  expires_at : Option Nat
  was_downgraded : Bool
  previous_tier : Option String
  deriving Repr, DecidableEq

/-- Embeds `check_and_enforce_subscription(user_id)` at clock `now`: free tier
never expires; a paid tier whose `subscription_expires_at` is strictly in
the past is downgraded to the free tier with the expiry cleared.  `none`
models a raised store error (user or free tier row missing). -/
def check_and_enforce_subscription (db : DB) (uid now : Nat) :
    Option (DB × EnforceResult) :=
  match getUser db uid with
  | none => none
  | some u =>
    match getTierById db u.current_tier_id with
    | none => none
    | some tier =>
      if tier.name = "free" then
        some (db, ⟨tier, true, none, false, none⟩)
      else
        match u.subscription_expires_at with
        | some e =>
          if now > e then
            match getTierByName db "free" with
            | none => none
            | some freeTier =>
              some (updateUser db uid (fun v =>
                      { v with current_tier_id := freeTier.id,
                               subscription_expires_at := none }),
                    ⟨freeTier, true, none, true, some tier.name⟩)
          else
            some (db, ⟨tier, true, some e, false, none⟩)
        | none =>
          some (db, ⟨tier, true, none, false, none⟩)

-- ----------------------------------------------------------------
-- activate_subscription (main.py lines 257-284)
-- ----------------------------------------------------------------

/-- Default of the `duration_days` parameter of `activate_subscription`. -/
def defaultDurationDays : Nat := 30

/-- Embeds `activate_subscription(user_id, tier_id, duration_days)` at clock
`now`: stacks on a still-future expiry, otherwise starts from `now`; always
reassigns the tier.  `none` models the raised store error when the user row
is missing (nothing written in that case).  `newExpiry` is the
`new_expires` computation of the source (lines 268-277). -/
def newExpiry (u : User) (dur now : Nat) : Nat :=
  match u.subscription_expires_at with
  | some e => if e > now then e + dur else now + dur
  | none => now + dur

def activate_subscription (db : DB) (uid tid dur now : Nat) : Option DB :=
  match getUser db uid with
  | none => none
  | some u =>
    some (updateUser db uid (fun v =>
      { v with current_tier_id := tid,
               subscription_expires_at := some (newExpiry u dur now) }))

-- ----------------------------------------------------------------
-- initiate_subscription (main.py lines 412-506)
-- ----------------------------------------------------------------

/-- Body of `models.PaymentInitResponse`. -/
structure PaymentInitResponse where
  payment_url : Option String
  transaction_id : Nat
  status : String
  message : String
  deriving Repr, DecidableEq

/-- Message of the duplicate-transaction branch of `initiate_subscription`. -/
def alreadyPendingMessage (tierName : String) : String :=
  "You already have a pending payment for " ++ tierName ++
  " tier. Complete your existing payment or wait for it to expire."

/-- Message of the Orange-Money fallback branch of `initiate_subscription`. -/
def omUnavailableMessage (price : Nat) (ref : String) : String :=
  "Orange Money is temporarily unavailable. Please send P" ++ toString price ++
  " via Orange Money to " ++ whatsappNumber ++ " with reference: " ++ ref ++
  ", then confirm your payment."

/-- Message of the MyZaka branch of `initiate_subscription`. -/
def myzakaMessage (price : Nat) (ref : String) : String :=
  "Send P" ++ toString price ++ " via MyZaka to " ++ whatsappNumber ++
  ". Use reference: " ++ ref ++
  ". After payment, confirm with your MyZaka receipt reference."

/-- Message of the manual branch of `initiate_subscription`. -/
def manualMessage (price : Nat) (ref : String) : String :=
  "Send P" ++ toString price ++ " to " ++ whatsappNumber ++
  ". Use reference: " ++ ref ++
  ". Contact us on WhatsApp with proof of payment for activation."

/-- The fresh `txn_data` dict of `initiate_subscription` before the
method-specific branch. -/
def mkBaseTxn (nid uid : Nat) (tier : Tier) (m : PaymentMethod)
    (ref : String) : Transaction :=
  { id := nid
    user_id := uid
    tier_id := tier.id
    amount_pula := tier.price_pula
    payment_method := m
    transaction_reference := ref
    status := .pending
    orange_money_order_id := none
    orange_money_pay_token := none
    orange_money_pay_url := none
    orange_money_status := none
    orange_money_transaction_id := none
    user_payment_reference := none
    admin_notes := none
    completed_at := none }

/-- Embeds `initiate_subscription(subscription, user)`; `nid` is the generated
`uuid4` transaction id, `ref` the generated `PD-...` reference, `gw` the
gateway outcome (consulted only on the `orange_money` branch). -/
def initiate_subscription (db : DB) (uid : Nat) (tierName : String)
    (m : PaymentMethod) (gw : GatewayInit) (nid : Nat) (ref : String) :
    DB × Except ApiError PaymentInitResponse :=
  match getTierByName db tierName with
  | none => (db, .error .internalError)
  | some tier =>
    if tier.price_pula = 0 then
      (db, .error .badRequest)
    else
      match findPendingTxn db uid tier.id with
      | some txn =>
        (db, .ok ⟨txn.orange_money_pay_url, txn.id, "pending",
                  alreadyPendingMessage tier.name⟩)
      | none =>
        let base := mkBaseTxn nid uid tier m ref
        match m, gw with
        | .orange_money, .ok url token =>
          let txn := { base with
            orange_money_order_id := some ref
            orange_money_pay_token := some token }
          (insertTxn db txn,
           .ok ⟨url, nid, "pending", "Redirecting to Orange Money for payment"⟩)
        | .orange_money, .unavailable =>
          let txn := { base with payment_method := .manual }
          (insertTxn db txn,
           .ok ⟨none, nid, "pending", omUnavailableMessage tier.price_pula ref⟩)
        | .myzaka, _ =>
          (insertTxn db base,
           .ok ⟨none, nid, "pending", myzakaMessage tier.price_pula ref⟩)
        | .manual, _ =>
          (insertTxn db base,
           .ok ⟨none, nid, "pending", manualMessage tier.price_pula ref⟩)

-- ----------------------------------------------------------------
-- Row-update dicts used by the handlers
-- ----------------------------------------------------------------

/-- Python truthiness of the optional `admin_notes` field (`None` and `""`
are falsy). -/
def notesTruthy : Option String → Bool
  | none => false
  | some s => !(s == "")

/-- Update dict of `confirm_payment`. -/
def setAwaiting (ref : String) (t : Transaction) : Transaction :=
  { t with user_payment_reference := some ref, status := .awaiting_verification }

/-- Update dict of the webhook's amount-mismatch branch. -/
def setMismatch (t : Transaction) : Transaction :=
  { t with status := .failed, orange_money_status := some "AMOUNT_MISMATCH" }

/-- Update dict of the SUCCESS branch of `check_payment_status`. -/
def setCompletedPoll (now : Nat) (t : Transaction) : Transaction :=
  { t with status := .completed, completed_at := some now,
           orange_money_status := some "SUCCESS" }

/-- Update dict marking a transaction failed with a gateway status tag
(the poll's terminal-failure branch and the webhook's failure branch). -/
def setFailed (s : String) (t : Transaction) : Transaction :=
  { t with status := .failed, orange_money_status := some s }

/-- Update dict of the webhook's success branch. -/
def setCompletedWebhook (cb : OrangeMoneyCallback) (now : Nat)
    (t : Transaction) : Transaction :=
  { t with status := .completed, completed_at := some now,
           orange_money_status := some cb.status,
           orange_money_transaction_id := some cb.transaction_id }

/-- Update dict of `admin_approve_payment`. -/
def setApproved (notes : Option String) (now : Nat) (t : Transaction) : Transaction :=
  { t with status := .completed, completed_at := some now,
           admin_notes := if notesTruthy notes then notes else t.admin_notes }

/-- Update dict of `admin_reject_payment`. -/
def setRejected (notes : Option String) (t : Transaction) : Transaction :=
  { t with status := .failed,
           admin_notes := if notesTruthy notes then notes else t.admin_notes }

-- ----------------------------------------------------------------
-- confirm_payment (main.py lines 509-546)
-- ----------------------------------------------------------------

/-- Body of `models.PaymentStatusResponse`. -/
structure PaymentStatusResponse where
  transaction_id : Nat
  status : String
  tier_name : String
  amount_pula : Nat
  message : String
  deriving Repr, DecidableEq

/-- Tier-name join `subscription_tiers!tier_id(name)` with the source's
`.get("name", "unknown")` default. -/
def tierNameOf (db : DB) (txn : Transaction) : String :=
  ((getTierById db txn.tier_id).map Tier.name).getD "unknown"

/-- Embeds `confirm_payment(confirmation, user)`: records the user's receipt
reference on the caller's own `pending` transaction and moves it to
`awaiting_verification`. -/
def confirm_payment (db : DB) (uid txnId : Nat) (ref : String) :
    DB × Except ApiError PaymentStatusResponse :=
  match db.transactions.find? (fun t =>
      t.id == txnId && t.user_id == uid && t.status == TxnStatus.pending) with
  | none => (db, .error .notFound)
  | some txn =>
    let db' := updateTxn db txn.id (setAwaiting ref)
    let tn := tierNameOf db txn
    (db', .ok ⟨txn.id, "awaiting_verification", tn, txn.amount_pula,
      "Payment reference received. Your " ++ tn ++
      " tier upgrade will be activated once we verify the payment. " ++
      "This usually takes a few minutes during business hours."⟩)

-- ----------------------------------------------------------------
-- check_payment_status (main.py lines 574-647)
-- ----------------------------------------------------------------

/-- The `status_messages` dict of `check_payment_status`. -/
def statusMessage (s : TxnStatus) (amount : Nat) (tierName : String) : String :=
  match s with
  | .pending => "Payment pending. Complete your P" ++ toString amount ++
      " payment to activate " ++ tierName ++ " tier."
  | .awaiting_verification => "Payment submitted. Waiting for verification of your " ++
      tierName ++ " tier upgrade."
  | .completed => "Payment complete! Your " ++ tierName ++ " tier is active."
  | .failed => "Payment failed. Please try again or contact support."
  | .refunded => "This payment has been refunded."

/-- The default (no-poll or poll-inconclusive) response of
`check_payment_status`: the last known store status. -/
def defaultStatusResponse (db : DB) (txn : Transaction) : PaymentStatusResponse :=
  ⟨txn.id, txn.status.toName, tierNameOf db txn, txn.amount_pula,
   statusMessage txn.status txn.amount_pula (tierNameOf db txn)⟩

/-- Embeds `check_payment_status(transaction_id, user)` at clock `now` with
gateway transport outcome `tp`: polls Orange Money only for a
gateway-initiated transaction still `pending` (with a stored order id);
`SUCCESS` completes and activates, terminal failures mark `failed`, any
other poll answer falls through to the stored status. -/
def check_payment_status (db : DB) (uid txnId : Nat) (tp : Transport)
    (now : Nat) : DB × Except ApiError PaymentStatusResponse :=
  match db.transactions.find? (fun t => t.id == txnId && t.user_id == uid) with
  | none => (db, .error .notFound)
  | some txn =>
    match txn.payment_method, txn.status, txn.orange_money_order_id with
    | .orange_money, .pending, some _ =>
      match check_transaction_status tp with
      | .error e => (db, .error e)
      | .ok s =>
        if strUpper s = "SUCCESS" then
          match activate_subscription
              (updateTxn db txn.id (setCompletedPoll now))
              uid txn.tier_id defaultDurationDays now with
          | some db₂ =>
            (db₂, .ok ⟨txn.id, "completed", tierNameOf db txn, txn.amount_pula,
              "Payment confirmed! Your " ++ tierNameOf db txn ++ " tier is now active."⟩)
          | none =>
            (updateTxn db txn.id (setCompletedPoll now), .error .internalError)
        else if strUpper s = "FAILED" ∨ strUpper s = "EXPIRED" ∨ strUpper s = "CANCELLED" then
          (updateTxn db txn.id (setFailed (strUpper s)),
           .ok ⟨txn.id, "failed", tierNameOf db txn, txn.amount_pula,
            "Payment " ++ strLower (strUpper s) ++ ". Please try again."⟩)
        else
          (db, .ok (defaultStatusResponse db txn))
    | _, _, _ => (db, .ok (defaultStatusResponse db txn))

-- ----------------------------------------------------------------
-- orange_money_webhook (main.py lines 653-707)
-- ----------------------------------------------------------------

/-- Acknowledgement body returned by `orange_money_webhook`. -/
inductive WebhookAck where
  | already_processed
  | amount_mismatch
  | processed
  deriving Repr, DecidableEq

/-- Source check `callback_data.status.upper() in ("SUCCESS", "SUCCESSFULL")`. -/
def isSuccessStatus (s : String) : Bool :=
  strUpper s == "SUCCESS" || strUpper s == "SUCCESSFULL"

/-- Embeds `orange_money_webhook(callback_data)` at clock `now`: terminal guard,
then amount verification, then status mapping with activation on success. -/
def orange_money_webhook (db : DB) (cb : OrangeMoneyCallback) (now : Nat) :
    DB × Except ApiError WebhookAck :=
  match findTxnByOrderId db cb.order_id with
  | none => (db, .error .notFound)
  | some txn =>
    if txn.status.isTerminal then
      (db, .ok .already_processed)
    else if cb.amount ≠ (txn.amount_pula : ℚ) then
      (updateTxn db txn.id setMismatch, .ok .amount_mismatch)
    else if isSuccessStatus cb.status then
      match activate_subscription
          (updateTxn db txn.id (setCompletedWebhook cb now))
          txn.user_id txn.tier_id defaultDurationDays now with
      | some db₂ => (db₂, .ok .processed)
      | none =>
        (updateTxn db txn.id (setCompletedWebhook cb now), .error .internalError)
    else
      (updateTxn db txn.id (setFailed cb.status), .ok .processed)

-- ----------------------------------------------------------------
-- admin_approve_payment / admin_reject_payment (main.py lines 743-819)
-- ----------------------------------------------------------------

/-- The admin lookup
`.eq("id", txnId).in_("status", ["pending", "awaiting_verification"]).single()`. -/
def findAdminTxn (db : DB) (txnId : Nat) : Option Transaction :=
  db.transactions.find? (fun t =>
    t.id == txnId &&
    (t.status == TxnStatus.pending || t.status == TxnStatus.awaiting_verification))

/-- Embeds `admin_approve_payment(approval)` at clock `now`: completes a
`pending`/`awaiting_verification` transaction and activates the
subscription unconditionally. -/
def admin_approve_payment (db : DB) (txnId : Nat) (notes : Option String)
    (now : Nat) : DB × Except ApiError PaymentStatusResponse :=
  match findAdminTxn db txnId with
  | none => (db, .error .notFound)
  | some txn =>
    match activate_subscription
        (updateTxn db txn.id (setApproved notes now))
        txn.user_id txn.tier_id defaultDurationDays now with
    | some db₂ =>
      (db₂, .ok ⟨txn.id, "completed", tierNameOf db txn, txn.amount_pula,
        "Payment approved. User upgraded to " ++ tierNameOf db txn ++ " tier."⟩)
    | none =>
      (updateTxn db txn.id (setApproved notes now), .error .internalError)

/-- Embeds `admin_reject_payment(approval)`: marks a
`pending`/`awaiting_verification` transaction `failed`. -/
def admin_reject_payment (db : DB) (txnId : Nat) (notes : Option String) :
    DB × Except ApiError PaymentStatusResponse :=
  match findAdminTxn db txnId with
  | none => (db, .error .notFound)
  | some txn =>
    let tn := tierNameOf db txn
    let db₁ := updateTxn db txn.id (setRejected notes)
    (db₁, .ok ⟨txn.id, "failed", tn, txn.amount_pula,
      "Payment rejected." ++
      (match notes with
       | some n => if n == "" then "" else " Reason: " ++ n
       | none => "")⟩)

-- ----------------------------------------------------------------
-- The store-mutating request handlers as one step type
-- ----------------------------------------------------------------

/-- One invocation of a store-mutating handler of the subscription core
(the Subscription Ledger mutations reachable through the HTTP layer). -/
inductive Op where
  | enforce (uid now : Nat)
  | initiate (uid : Nat) (tierName : String) (m : PaymentMethod)
      (gw : GatewayInit) (nid : Nat) (ref : String)
  | confirm (uid txnId : Nat) (ref : String)
  | checkPay (uid txnId : Nat) (tp : Transport) (now : Nat)
  | webhook (cb : OrangeMoneyCallback) (now : Nat)
  | adminApprove (txnId : Nat) (notes : Option String) (now : Nat)
  | adminReject (txnId : Nat) (notes : Option String)

/-- Store state after one handler invocation (raised errors keep whatever
had been written before the raise, as in the source). -/
def applyOp (db : DB) : Op → DB
  | .enforce uid now =>
    match check_and_enforce_subscription db uid now with
    | some (db', _) => db'
    | none => db
  | .initiate uid tn m gw nid ref => (initiate_subscription db uid tn m gw nid ref).1
  | .confirm uid txnId ref => (confirm_payment db uid txnId ref).1
  | .checkPay uid txnId tp now => (check_payment_status db uid txnId tp now).1
  | .webhook cb now => (orange_money_webhook db cb now).1
  | .adminApprove txnId notes now => (admin_approve_payment db txnId notes now).1
  | .adminReject txnId notes => (admin_reject_payment db txnId notes).1

-- ----------------------------------------------------------------
-- General list helper lemmas
-- ----------------------------------------------------------------

/-- Helper: `find?` commutes with a map that does not disturb the
predicate. -/
theorem find?_map_of_pred (l : List α) (p : α → Bool) (g : α → α)
    (h : ∀ a, p (g a) = p a) :
    (l.map g).find? p = (l.find? p).map g := by
  induction l with
  | nil => rfl
  | cons a t ih =>
    cases hp : p a with
    | false =>
      rw [List.map_cons, List.find?_cons_of_neg _ (by rw [h a, hp]; exact Bool.false_ne_true),
          List.find?_cons_of_neg _ (by rw [hp]; exact Bool.false_ne_true), ih]
    | true =>
      rw [List.map_cons, List.find?_cons_of_pos _ (by rw [h a, hp]),
          List.find?_cons_of_pos _ hp, Option.map_some']

/-- Helper: members of a list with nodup `Tier.id` image are determined by
their id. -/
theorem tier_id_inj {l : List Tier} (h : (l.map Tier.id).Nodup)
    {a b : Tier} (ha : a ∈ l) (hb : b ∈ l) (hid : a.id = b.id) : a = b := by
  induction l with
  | nil => cases ha
  | cons c t ih =>
    rw [List.map_cons, List.nodup_cons] at h
    rcases List.mem_cons.mp ha with rfl | ha' <;>
      rcases List.mem_cons.mp hb with rfl | hb'
    · rfl
    · exact absurd (hid ▸ List.mem_map_of_mem Tier.id hb') h.1
    · exact absurd (hid ▸ List.mem_map_of_mem Tier.id ha') h.1
    · exact ih h.2 ha' hb'

-- ----------------------------------------------------------------
-- Substring occurrence (for "the message names the amount/reference")
-- ----------------------------------------------------------------

/-- Helper: `pat` occurs contiguously in the character list. -/
def charListContains (pat : List Char) : List Char → Bool
  | [] => pat.isEmpty
  | c :: rest => pat.isPrefixOf (c :: rest) || charListContains pat rest

/-- Helper: `pat` occurs contiguously in the string `s`. -/
def strContains (s pat : String) : Bool :=
  charListContains pat.data s.data

theorem isPrefixOf_append_self (l t : List Char) : l.isPrefixOf (l ++ t) = true := by
  induction l with
  | nil => simp [List.isPrefixOf]
  | cons a as ih => simp [List.isPrefixOf, ih]

theorem charListContains_self_append (pat b : List Char) :
    charListContains pat (pat ++ b) = true := by
  cases pat with
  | nil =>
    cases b with
    | nil => rfl
    | cons c r => simp [charListContains, List.isPrefixOf]
  | cons p ps =>
    simp [charListContains, isPrefixOf_append_self]

theorem charListContains_append_left (pat x l : List Char)
    (h : charListContains pat l = true) :
    charListContains pat (x ++ l) = true := by
  induction x with
  | nil => exact h
  | cons c r ih => simp [charListContains, ih]

/-- Helper: a string built as `pat ++ y` contains `pat`. -/
theorem strContains_self_append (pat y : String) :
    strContains (pat ++ y) pat = true :=
  charListContains_self_append pat.data y.data

/-- Helper: prepending text preserves containment. -/
theorem strContains_append_left (x t pat : String)
    (h : strContains t pat = true) :
    strContains (x ++ t) pat = true :=
  charListContains_append_left pat.data x.data t.data h

theorem strAppend_assoc (a b c : String) : a ++ b ++ c = a ++ (b ++ c) := by
  apply congrArg String.mk
  exact List.append_assoc a.data b.data c.data

/-- The Orange-Money fallback message contains the decimal amount. -/
theorem omUnavailableMessage_names_amount (p : Nat) (ref : String) :
    strContains (omUnavailableMessage p ref) (toString p) = true := by
  unfold omUnavailableMessage
  simp only [strAppend_assoc]
  exact strContains_append_left _ _ _ (strContains_self_append _ _)

/-- The Orange-Money fallback message contains the payment reference. -/
theorem omUnavailableMessage_names_ref (p : Nat) (ref : String) :
    strContains (omUnavailableMessage p ref) ref = true := by
  unfold omUnavailableMessage
  simp only [strAppend_assoc]
  exact strContains_append_left _ _ _ (strContains_append_left _ _ _
    (strContains_append_left _ _ _ (strContains_append_left _ _ _
      (strContains_append_left _ _ _ (strContains_self_append _ _)))))

-- ----------------------------------------------------------------
-- Structural facts about the handlers
-- ----------------------------------------------------------------

theorem activate_eq_of_getUser {db : DB} {uid : Nat} {u : User} (tid dur now : Nat)
    (hu : getUser db uid = some u) :
    activate_subscription db uid tid dur now =
      some (updateUser db uid (fun v =>
        { v with current_tier_id := tid,
                 subscription_expires_at := some (newExpiry u dur now) })) := by
  unfold activate_subscription
  rw [hu]

theorem activate_tiers {db db' : DB} {uid tid dur now : Nat}
    (h : activate_subscription db uid tid dur now = some db') :
    db'.tiers = db.tiers := by
  unfold activate_subscription at h
  cases hu : getUser db uid <;> rw [hu] at h
  · cases h
  · cases h; rfl

theorem activate_transactions {db db' : DB} {uid tid dur now : Nat}
    (h : activate_subscription db uid tid dur now = some db') :
    db'.transactions = db.transactions := by
  unfold activate_subscription at h
  cases hu : getUser db uid <;> rw [hu] at h
  · cases h
  · cases h; rfl

theorem enforce_tiers {db : DB} {uid now : Nat} {p : DB × EnforceResult}
    (h : check_and_enforce_subscription db uid now = some p) :
    p.1.tiers = db.tiers := by
  unfold check_and_enforce_subscription at h
  repeat' split at h
  all_goals cases h <;> rfl

theorem enforce_transactions {db : DB} {uid now : Nat} {p : DB × EnforceResult}
    (h : check_and_enforce_subscription db uid now = some p) :
    p.1.transactions = db.transactions := by
  unfold check_and_enforce_subscription at h
  repeat' split at h
  all_goals cases h <;> rfl

theorem initiate_tiers (db : DB) (uid : Nat) (tn : String) (m : PaymentMethod)
    (gw : GatewayInit) (nid : Nat) (ref : String) :
    (initiate_subscription db uid tn m gw nid ref).1.tiers = db.tiers := by
  unfold initiate_subscription
  repeat' split
  all_goals rfl

theorem confirm_tiers (db : DB) (uid txnId : Nat) (ref : String) :
    (confirm_payment db uid txnId ref).1.tiers = db.tiers := by
  unfold confirm_payment
  repeat' split
  all_goals rfl

theorem checkPay_tiers (db : DB) (uid txnId : Nat) (tp : Transport) (now : Nat) :
    (check_payment_status db uid txnId tp now).1.tiers = db.tiers := by
  unfold check_payment_status
  repeat' split
  all_goals first
    | rfl
    | (rename_i h; exact Eq.trans (activate_tiers h) rfl)

theorem webhook_tiers (db : DB) (cb : OrangeMoneyCallback) (now : Nat) :
    (orange_money_webhook db cb now).1.tiers = db.tiers := by
  unfold orange_money_webhook
  repeat' split
  all_goals first
    | rfl
    | (rename_i h; exact Eq.trans (activate_tiers h) rfl)

theorem adminApprove_tiers (db : DB) (txnId : Nat) (notes : Option String) (now : Nat) :
    (admin_approve_payment db txnId notes now).1.tiers = db.tiers := by
  unfold admin_approve_payment
  repeat' split
  all_goals first
    | rfl
    | (rename_i h; exact Eq.trans (activate_tiers h) rfl)

theorem adminReject_tiers (db : DB) (txnId : Nat) (notes : Option String) :
    (admin_reject_payment db txnId notes).1.tiers = db.tiers := by
  unfold admin_reject_payment
  repeat' split
  all_goals rfl

/-- No handler ever writes the tier catalog. -/
theorem applyOp_tiers (db : DB) (op : Op) : (applyOp db op).tiers = db.tiers := by
  cases op with
  | enforce uid now =>
    simp only [applyOp]
    split
    · rename_i h
      exact enforce_tiers h
    · rfl
  | initiate uid tn m gw nid ref => exact initiate_tiers db uid tn m gw nid ref
  | confirm uid txnId ref => exact confirm_tiers db uid txnId ref
  | checkPay uid txnId tp now => exact checkPay_tiers db uid txnId tp now
  | webhook cb now => exact webhook_tiers db cb now
  | adminApprove txnId notes now => exact adminApprove_tiers db txnId notes now
  | adminReject txnId notes => exact adminReject_tiers db txnId notes

theorem getUser_updateUser (db : DB) (uid uid' : Nat) (f : User → User)
    (hid : ∀ u, (f u).id = u.id) :
    getUser (updateUser db uid f) uid' =
      (getUser db uid').map (fun u => if u.id == uid then f u else u) := by
  apply find?_map_of_pred
  intro a
  by_cases h : a.id == uid
  · simp [h, hid a]
  · simp [h]

theorem findTxnByOrderId_updateTxn (db : DB) (tid : Nat)
    (f : Transaction → Transaction) (oid : String)
    (hord : ∀ t, (f t).orange_money_order_id = t.orange_money_order_id) :
    findTxnByOrderId (updateTxn db tid f) oid =
      (findTxnByOrderId db oid).map (fun t => if t.id == tid then f t else t) := by
  apply find?_map_of_pred
  intro a
  by_cases h : a.id == tid
  · simp [h, hord a]
  · simp [h]

theorem mem_of_findTxnByOrderId {db : DB} {oid : String} {txn : Transaction}
    (h : findTxnByOrderId db oid = some txn) : txn ∈ db.transactions :=
  List.mem_of_find?_eq_some h

theorem mem_of_findAdminTxn {db : DB} {txnId : Nat} {txn : Transaction}
    (h : findAdminTxn db txnId = some txn) : txn ∈ db.transactions :=
  List.mem_of_find?_eq_some h

theorem mem_of_findPendingTxn {db : DB} {uid tid : Nat} {txn : Transaction}
    (h : findPendingTxn db uid tid = some txn) : txn ∈ db.transactions :=
  List.mem_of_find?_eq_some h

theorem activate_users_shape {db db' : DB} {uid tid dur now : Nat}
    (h : activate_subscription db uid tid dur now = some db') :
    ∃ e, db'.users = db.users.map (fun u => if u.id == uid then
        { u with current_tier_id := tid, subscription_expires_at := some e }
      else u) := by
  unfold activate_subscription at h
  cases hu : getUser db uid <;> rw [hu] at h
  · cases h
  · cases h
    exact ⟨newExpiry _ dur now, rfl⟩

theorem enforce_users_shape {db : DB} {uid now : Nat} {p : DB × EnforceResult}
    (h : check_and_enforce_subscription db uid now = some p) :
    p.1.users = db.users ∨
    ∃ tid, p.1.users = db.users.map (fun u => if u.id == uid then
        { u with current_tier_id := tid, subscription_expires_at := none }
      else u) := by
  unfold check_and_enforce_subscription at h
  repeat' split at h
  all_goals cases h <;> first
    | exact Or.inl rfl
    | exact Or.inr ⟨_, rfl⟩

theorem initiate_users (db : DB) (uid : Nat) (tn : String) (m : PaymentMethod)
    (gw : GatewayInit) (nid : Nat) (ref : String) :
    (initiate_subscription db uid tn m gw nid ref).1.users = db.users := by
  unfold initiate_subscription
  repeat' split
  all_goals rfl

theorem confirm_users (db : DB) (uid txnId : Nat) (ref : String) :
    (confirm_payment db uid txnId ref).1.users = db.users := by
  unfold confirm_payment
  repeat' split
  all_goals rfl

theorem adminReject_users (db : DB) (txnId : Nat) (notes : Option String) :
    (admin_reject_payment db txnId notes).1.users = db.users := by
  unfold admin_reject_payment
  repeat' split
  all_goals rfl

/-- Every handler either leaves the user table unchanged, performs the
expiry-driven downgrade write (tier reassigned with the expiry cleared), or
performs an activation write whose target tier id is the tier id of some
stored payment transaction. -/
theorem applyOp_users_cases (db : DB) (op : Op) :
    (applyOp db op).users = db.users ∨
    (∃ uid tid, (applyOp db op).users =
        db.users.map (fun u => if u.id == uid then
          { u with current_tier_id := tid, subscription_expires_at := none }
        else u)) ∨
    (∃ uid tid e, (applyOp db op).users =
        db.users.map (fun u => if u.id == uid then
          { u with current_tier_id := tid, subscription_expires_at := some e }
        else u) ∧
      ∃ txn ∈ db.transactions, txn.tier_id = tid) := by
  cases op with
  | enforce uid now =>
    simp only [applyOp]
    split
    · rename_i h
      rcases enforce_users_shape h with h' | ⟨tid, h'⟩
      · exact Or.inl h'
      · exact Or.inr (Or.inl ⟨uid, tid, h'⟩)
    · exact Or.inl rfl
  | initiate uid tn m gw nid ref => exact Or.inl (initiate_users db uid tn m gw nid ref)
  | confirm uid txnId ref => exact Or.inl (confirm_users db uid txnId ref)
  | checkPay uid txnId tp now =>
    simp only [applyOp]
    unfold check_payment_status
    repeat' split
    all_goals try exact Or.inl rfl
    -- remaining: the successful-activation branch
    rename_i db₂ hact
    rcases activate_users_shape hact with ⟨e, he⟩
    refine Or.inr (Or.inr ⟨_, _, e, he, ?_⟩)
    exact ⟨_, List.mem_of_find?_eq_some (by assumption), rfl⟩
  | webhook cb now =>
    simp only [applyOp]
    unfold orange_money_webhook
    repeat' split
    all_goals try exact Or.inl rfl
    rename_i db₂ hact
    rcases activate_users_shape hact with ⟨e, he⟩
    refine Or.inr (Or.inr ⟨_, _, e, he, ?_⟩)
    exact ⟨_, mem_of_findTxnByOrderId (by assumption), rfl⟩
  | adminApprove txnId notes now =>
    simp only [applyOp]
    unfold admin_approve_payment
    repeat' split
    all_goals try exact Or.inl rfl
    rename_i db₂ hact
    rcases activate_users_shape hact with ⟨e, he⟩
    refine Or.inr (Or.inr ⟨_, _, e, he, ?_⟩)
    exact ⟨_, mem_of_findAdminTxn (by assumption), rfl⟩
  | adminReject txnId notes => exact Or.inl (adminReject_users db txnId notes)

theorem mem_of_getTierByName {db : DB} {name : String} {tier : Tier}
    (h : getTierByName db name = some tier) : tier ∈ db.tiers :=
  List.mem_of_find?_eq_some h

/-- A per-row transaction update of the kind the handlers perform: it never
touches the user, the tier, or the stored pay url, and never moves a row
INTO `pending`. -/
def StatusStep (f : Transaction → Transaction) : Prop :=
  ∀ t, (f t).user_id = t.user_id ∧ (f t).tier_id = t.tier_id ∧
       (f t).orange_money_pay_url = t.orange_money_pay_url ∧
       ((f t).status = TxnStatus.pending → t.status = TxnStatus.pending)

/-- Every handler either leaves the transaction table unchanged, performs a
single status-style row update (a `StatusStep`), or appends one fresh
`pending` transaction for a non-free tier that had no pending transaction
for its (user, tier) pair. -/
theorem applyOp_txns_cases (db : DB) (op : Op) :
    (applyOp db op).transactions = db.transactions ∨
    (∃ tid f, (applyOp db op).transactions =
        db.transactions.map (fun t => if t.id == tid then f t else t) ∧
      StatusStep f) ∨
    (∃ txn tier, (applyOp db op).transactions = db.transactions ++ [txn] ∧
      tier ∈ db.tiers ∧ tier.id = txn.tier_id ∧ tier.price_pula ≠ 0 ∧
      txn.status = TxnStatus.pending ∧ txn.orange_money_pay_url = none ∧
      findPendingTxn db txn.user_id txn.tier_id = none) := by
  cases op with
  | enforce uid now =>
    simp only [applyOp]
    split
    · rename_i h
      exact Or.inl (enforce_transactions h)
    · exact Or.inl rfl
  | initiate uid tn m gw nid ref =>
    simp only [applyOp]
    unfold initiate_subscription
    repeat' split
    all_goals try exact Or.inl rfl
    all_goals
      exact Or.inr (Or.inr ⟨_, _, rfl, mem_of_getTierByName (by assumption),
        rfl, by assumption, rfl, rfl, by assumption⟩)
  | confirm uid txnId ref =>
    simp only [applyOp]
    unfold confirm_payment
    repeat' split
    all_goals try exact Or.inl rfl
    all_goals
      exact Or.inr (Or.inl ⟨_, _, rfl, fun t => ⟨rfl, rfl, rfl, fun h => nomatch h⟩⟩)
  | checkPay uid txnId tp now =>
    simp only [applyOp]
    unfold check_payment_status
    repeat' split
    all_goals try exact Or.inl rfl
    all_goals try
      exact Or.inr (Or.inl ⟨_, _, rfl, fun t => ⟨rfl, rfl, rfl, fun h => nomatch h⟩⟩)
    all_goals
      (rename_i db₂ hact
       exact Or.inr (Or.inl ⟨_, _, (activate_transactions hact).trans rfl,
         fun t => ⟨rfl, rfl, rfl, fun h => nomatch h⟩⟩))
  | webhook cb now =>
    simp only [applyOp]
    unfold orange_money_webhook
    repeat' split
    all_goals try exact Or.inl rfl
    all_goals try
      exact Or.inr (Or.inl ⟨_, _, rfl, fun t => ⟨rfl, rfl, rfl, fun h => nomatch h⟩⟩)
    all_goals
      (rename_i db₂ hact
       exact Or.inr (Or.inl ⟨_, _, (activate_transactions hact).trans rfl,
         fun t => ⟨rfl, rfl, rfl, fun h => nomatch h⟩⟩))
  | adminApprove txnId notes now =>
    simp only [applyOp]
    unfold admin_approve_payment
    repeat' split
    all_goals try exact Or.inl rfl
    all_goals try
      exact Or.inr (Or.inl ⟨_, _, rfl, fun t => ⟨rfl, rfl, rfl, fun h => nomatch h⟩⟩)
    all_goals
      (rename_i db₂ hact
       exact Or.inr (Or.inl ⟨_, _, (activate_transactions hact).trans rfl,
         fun t => ⟨rfl, rfl, rfl, fun h => nomatch h⟩⟩))
  | adminReject txnId notes =>
    simp only [applyOp]
    unfold admin_reject_payment
    repeat' split
    all_goals try exact Or.inl rfl
    all_goals
      exact Or.inr (Or.inl ⟨_, _, rfl, fun t => ⟨rfl, rfl, rfl, fun h => nomatch h⟩⟩)

-- ----------------------------------------------------------------
-- Concrete fixtures (used by witnesses and counterexamples)
-- ----------------------------------------------------------------

def tierFreeEx : Tier := ⟨1, "free", 0⟩

def tierBasicEx : Tier := ⟨2, "basic", 50⟩

/-- A user currently on the basic tier with expiry at clock 50. -/
def dbStackEx : DB := ⟨[⟨1, 2, some 50⟩], [tierFreeEx, tierBasicEx], []⟩

/-- A gateway-initiated pending transaction with order id "PD-1". -/
def txnOMEx : Transaction :=
  { mkBaseTxn 10 1 tierBasicEx .orange_money "PD-1" with
    orange_money_order_id := some "PD-1" }

/-- Free-tier user with one gateway-initiated pending transaction. -/
def dbPollEx : DB := ⟨[⟨1, 1, none⟩], [tierFreeEx, tierBasicEx], [txnOMEx]⟩

/-- Same store but the transaction is already completed. -/
def dbDoneEx : DB :=
  ⟨[⟨1, 1, none⟩], [tierFreeEx, tierBasicEx], [{ txnOMEx with status := .completed }]⟩

-- ----------------------------------------------------------------
-- C3 — renewal stacking arithmetic
-- ----------------------------------------------------------------

/-- C3: for every user, tier and duration `dur`, `activate` yields new
expiry `e + dur` when the current expiry `e` is strictly in the future,
and `now + dur` when the expiry is absent or already passed; in both cases
the user's tier is reassigned to the purchased tier. -/
theorem spec_C3_renewal_stacking (db : DB) (uid tid dur now : Nat) (u : User)
    (hu : getUser db uid = some u) :
    ∃ db', activate_subscription db uid tid dur now = some db' ∧
      ∃ u', getUser db' uid = some u' ∧
        u'.current_tier_id = tid ∧
        (∀ e, u.subscription_expires_at = some e → now < e →
            u'.subscription_expires_at = some (e + dur)) ∧
        (u.subscription_expires_at = none →
            u'.subscription_expires_at = some (now + dur)) ∧
        (∀ e, u.subscription_expires_at = some e → e ≤ now →
            u'.subscription_expires_at = some (now + dur)) := by
  refine ⟨_, activate_eq_of_getUser tid dur now hu, ?_⟩
  rw [getUser_updateUser db uid uid
        (fun v => { v with current_tier_id := tid,
                           subscription_expires_at := some (newExpiry u dur now) })
        (fun v => rfl), hu]
  have hpu : (u.id == uid) = true := by
    unfold getUser at hu
    have h2 := List.find?_some hu
    simpa using h2
  simp only [Option.map_some', hpu, if_true]
  refine ⟨_, rfl, rfl, ?_, ?_, ?_⟩
  · intro e he hlt
    simp [newExpiry, he, hlt]
  · intro hnone
    simp [newExpiry, hnone]
  · intro e he hle
    simp [newExpiry, he, Nat.not_lt.mpr hle]

theorem spec_C3_renewal_stacking_witness :
    ∃ db', activate_subscription dbStackEx 1 2 30 20 = some db' ∧
      ∃ u', getUser db' 1 = some u' ∧
        u'.current_tier_id = 2 ∧
        (∀ e, (User.mk 1 2 (some 50)).subscription_expires_at = some e → 20 < e →
            u'.subscription_expires_at = some (e + 30)) ∧
        ((User.mk 1 2 (some 50)).subscription_expires_at = none →
            u'.subscription_expires_at = some (20 + 30)) ∧
        (∀ e, (User.mk 1 2 (some 50)).subscription_expires_at = some e → e ≤ 20 →
            u'.subscription_expires_at = some (20 + 30)) :=
  spec_C3_renewal_stacking dbStackEx 1 2 30 20 ⟨1, 2, some 50⟩ rfl

-- ----------------------------------------------------------------
-- C8 — admin override scope
-- ----------------------------------------------------------------

/-- C8: `adminApprove` and `adminReject` operate only on transactions whose
status is `pending` or `awaiting_verification`; for a transaction id whose
rows are all in other statuses, both fail with not-found and leave the
store unchanged. -/
theorem spec_C8_admin_scope (db : DB) (txnId : Nat) (notes : Option String)
    (now : Nat)
    (h : ∀ t ∈ db.transactions, t.id = txnId →
        t.status ≠ TxnStatus.pending ∧ t.status ≠ TxnStatus.awaiting_verification) :
    admin_approve_payment db txnId notes now = (db, .error .notFound) ∧
    admin_reject_payment db txnId notes = (db, .error .notFound) := by
  have hfind : findAdminTxn db txnId = none := by
    apply List.find?_eq_none.mpr
    intro t ht hp
    simp only [Bool.and_eq_true, Bool.or_eq_true, beq_iff_eq] at hp
    rcases hp with ⟨hid, hst⟩
    rcases h t ht hid with ⟨h1, h2⟩
    rcases hst with h' | h'
    · exact h1 h'
    · exact h2 h'
  constructor
  · unfold admin_approve_payment
    rw [hfind]
  · unfold admin_reject_payment
    rw [hfind]

theorem spec_C8_admin_scope_witness :
    admin_approve_payment dbDoneEx 10 none 100 = (dbDoneEx, .error .notFound) ∧
    admin_reject_payment dbDoneEx 10 none = (dbDoneEx, .error .notFound) :=
  spec_C8_admin_scope dbDoneEx 10 none 100 (by decide)

-- ----------------------------------------------------------------
-- C2 — webhook amount verification
-- ----------------------------------------------------------------

/-- C2: for every callback delivered for a non-terminal transaction whose
amount differs from the recorded `amount_pula`, the webhook marks the
transaction failed with the internal tag AMOUNT_MISMATCH and returns
without activating any subscription (the user table is untouched),
whatever the callback's status field says. -/
theorem spec_C2_amount_mismatch (db : DB) (cb : OrangeMoneyCallback)
    (now : Nat) (txn : Transaction)
    (hfind : findTxnByOrderId db cb.order_id = some txn)
    (hnt : txn.status.isTerminal = false)
    (hamt : cb.amount ≠ (txn.amount_pula : ℚ)) :
    orange_money_webhook db cb now =
      (updateTxn db txn.id setMismatch, .ok .amount_mismatch) ∧
    (orange_money_webhook db cb now).1.users = db.users := by
  have h1 : orange_money_webhook db cb now =
      (updateTxn db txn.id setMismatch, .ok .amount_mismatch) := by
    unfold orange_money_webhook
    rw [hfind]
    dsimp only
    rw [if_neg (by rw [hnt]; exact Bool.false_ne_true), if_pos hamt]
  exact ⟨h1, by rw [h1]; rfl⟩

theorem spec_C2_amount_mismatch_witness :
    orange_money_webhook dbPollEx ⟨"PD-1", "success", "OMT", 49, "BWP"⟩ 100 =
      (updateTxn dbPollEx txnOMEx.id setMismatch, .ok .amount_mismatch) ∧
    (orange_money_webhook dbPollEx ⟨"PD-1", "success", "OMT", 49, "BWP"⟩ 100).1.users =
      dbPollEx.users :=
  spec_C2_amount_mismatch dbPollEx ⟨"PD-1", "success", "OMT", 49, "BWP"⟩ 100
    txnOMEx rfl rfl (by decide)

-- ----------------------------------------------------------------
-- C1 — webhook idempotency
-- ----------------------------------------------------------------

theorem findTxnByOrderId_eq_of_txns {db db' : DB}
    (h : db'.transactions = db.transactions) (oid : String) :
    findTxnByOrderId db' oid = findTxnByOrderId db oid := by
  unfold findTxnByOrderId
  rw [h]

/-- Fixture callback matching `txnOMEx` (order id and amount agree). -/
def cbEx : OrangeMoneyCallback := ⟨"PD-1", "success", "OMT", 50, "BWP"⟩

/-- C1: a callback for a transaction already in a terminal status
(completed/failed/refunded) is acknowledged `already_processed` and leaves
the whole store untouched — no status write, no activation — regardless of
the callback's amount; consequently a callback whose processing succeeded
(`processed`) is a no-op when redelivered, so a successful callback
delivered twice activates exactly once. -/
theorem spec_C1_webhook_idempotency (db : DB) (cb : OrangeMoneyCallback)
    (now now' : Nat) :
    (∀ txn, findTxnByOrderId db cb.order_id = some txn →
        txn.status.isTerminal = true →
        orange_money_webhook db cb now = (db, .ok .already_processed)) ∧
    (∀ db₁, orange_money_webhook db cb now = (db₁, .ok .processed) →
        orange_money_webhook db₁ cb now' = (db₁, .ok .already_processed)) := by
  constructor
  · intro txn hfind hterm
    unfold orange_money_webhook
    rw [hfind]
    dsimp only
    rw [if_pos hterm]
  · intro db₁ h
    unfold orange_money_webhook at h
    cases hfind : findTxnByOrderId db cb.order_id <;> rw [hfind] at h <;> dsimp only at h
    · exact absurd h (by simp)
    case some txn =>
      by_cases hterm : txn.status.isTerminal = true
      · rw [if_pos hterm] at h
        exact absurd h (by simp)
      · rw [if_neg hterm] at h
        by_cases hamt : cb.amount ≠ (txn.amount_pula : ℚ)
        · rw [if_pos hamt] at h
          exact absurd h (by simp)
        · rw [if_neg hamt] at h
          by_cases hsucc : isSuccessStatus cb.status = true
          · rw [if_pos hsucc] at h
            cases hact : activate_subscription (updateTxn db txn.id (setCompletedWebhook cb now))
                txn.user_id txn.tier_id defaultDurationDays now <;> rw [hact] at h <;> dsimp only at h
            · exact absurd h (by simp)
            · rename_i db₂
              have hdb : db₂ = db₁ := congrArg Prod.fst h
              subst hdb
              unfold orange_money_webhook
              rw [findTxnByOrderId_eq_of_txns (activate_transactions hact) cb.order_id,
                  findTxnByOrderId_updateTxn db txn.id (setCompletedWebhook cb now)
                    cb.order_id (fun t => rfl), hfind]
              simp only [Option.map_some', beq_self_eq_true, if_true]
              try dsimp only
              rw [if_pos (show (setCompletedWebhook cb now txn).status.isTerminal = true from rfl)]
          · rw [if_neg hsucc] at h
            have hdb : updateTxn db txn.id (setFailed cb.status) = db₁ := congrArg Prod.fst h
            subst hdb
            unfold orange_money_webhook
            rw [findTxnByOrderId_updateTxn db txn.id (setFailed cb.status)
                  cb.order_id (fun t => rfl), hfind]
            simp only [Option.map_some', beq_self_eq_true, if_true]
            try dsimp only
            rw [if_pos (show (setFailed cb.status txn).status.isTerminal = true from rfl)]

theorem spec_C1_webhook_idempotency_witness :
    orange_money_webhook dbDoneEx cbEx 200 = (dbDoneEx, .ok .already_processed) :=
  (spec_C1_webhook_idempotency dbDoneEx cbEx 200 200).1
    { txnOMEx with status := .completed } rfl rfl

-- ----------------------------------------------------------------
-- C7 — fail-open initiation on gateway failure
-- ----------------------------------------------------------------

/-- Fresh store with no transactions (initiation fixtures). -/
def dbInitEx : DB := ⟨[⟨1, 1, none⟩], [tierFreeEx, tierBasicEx], []⟩

/-- C7: when the gateway adapter fails during a gateway-initiated
initiation, initiation still succeeds: the transaction is created with the
payment method degraded to manual, the response carries the instructional
message (which names the amount and the generated reference) instead of a
redirect URL, and the returned status is `pending`. -/
theorem spec_C7_fail_open (db : DB) (uid : Nat) (tierName : String)
    (nid : Nat) (ref : String) (tier : Tier)
    (ht : getTierByName db tierName = some tier)
    (hp : ¬ tier.price_pula = 0)
    (hnx : findPendingTxn db uid tier.id = none) :
    initiate_subscription db uid tierName .orange_money .unavailable nid ref =
      (insertTxn db (mkBaseTxn nid uid tier .manual ref),
       .ok ⟨none, nid, "pending", omUnavailableMessage tier.price_pula ref⟩) ∧
    strContains (omUnavailableMessage tier.price_pula ref) (toString tier.price_pula) = true ∧
    strContains (omUnavailableMessage tier.price_pula ref) ref = true := by
  refine ⟨?_, omUnavailableMessage_names_amount _ _, omUnavailableMessage_names_ref _ _⟩
  unfold initiate_subscription
  rw [ht]
  dsimp only
  rw [if_neg hp, hnx]
  rfl

theorem spec_C7_fail_open_witness :
    initiate_subscription dbInitEx 1 "basic" .orange_money .unavailable 10 "PD-9" =
      (insertTxn dbInitEx (mkBaseTxn 10 1 tierBasicEx .manual "PD-9"),
       .ok ⟨none, 10, "pending", omUnavailableMessage tierBasicEx.price_pula "PD-9"⟩) ∧
    strContains (omUnavailableMessage tierBasicEx.price_pula "PD-9")
      (toString tierBasicEx.price_pula) = true ∧
    strContains (omUnavailableMessage tierBasicEx.price_pula "PD-9") "PD-9" = true :=
  spec_C7_fail_open dbInitEx 1 "basic" 10 "PD-9" tierBasicEx rfl (by decide) rfl

-- ----------------------------------------------------------------
-- C5 — initiation dedup
-- ----------------------------------------------------------------

/-- Number of stored transactions for the (user, tier) pair in a
non-terminal status (`pending` or `awaiting_verification`). -/
def nonTerminalFor (db : DB) (uid tid : Nat) : Nat :=
  db.transactions.countP (fun t =>
    t.user_id == uid && t.tier_id == tid &&
    (t.status == TxnStatus.pending || t.status == TxnStatus.awaiting_verification))

/-- Number of stored `pending` transactions for the (user, tier) pair. -/
def pendingFor (db : DB) (uid tid : Nat) : Nat :=
  db.transactions.countP (fun t =>
    t.user_id == uid && t.tier_id == tid && t.status == TxnStatus.pending)

/-- C5 counterexample: starting from an empty transaction table, the run
initiate → confirm → initiate ends with TWO non-terminal transactions for
the same (user, tier) pair — the duplicate check only looks at `pending`,
so an `awaiting_verification` transaction does not block a new one — and
the second initiation answers with a fresh transaction id (11, not 10). -/
theorem spec_C5_counterexample :
    nonTerminalFor
      (applyOp (applyOp (applyOp dbInitEx
          (.initiate 1 "basic" .manual .unavailable 10 "PD-A"))
          (.confirm 1 10 "RCPT"))
          (.initiate 1 "basic" .manual .unavailable 11 "PD-B")) 1 2 = 2 ∧
    (initiate_subscription
      (applyOp (applyOp dbInitEx
          (.initiate 1 "basic" .manual .unavailable 10 "PD-A"))
          (.confirm 1 10 "RCPT")) 1 "basic" .manual .unavailable 11 "PD-B").2 =
      .ok ⟨none, 11, "pending", manualMessage 50 "PD-B"⟩ := by
  decide

/-- C5 amended: with "non-terminal" weakened to "pending" (the only status
the duplicate check actually queries) both halves hold: every handler
preserves "at most one pending transaction per (user, tier) pair", and
initiate returns an existing pending transaction unchanged — same id, no
new row — instead of creating a duplicate. -/
theorem spec_C5_pending_dedup (db : DB) :
    (∀ op uid tid, (∀ u t, pendingFor db u t ≤ 1) →
        pendingFor (applyOp db op) uid tid ≤ 1) ∧
    (∀ uid tierName m gw nid ref tier txn,
        getTierByName db tierName = some tier →
        ¬ tier.price_pula = 0 →
        findPendingTxn db uid tier.id = some txn →
        initiate_subscription db uid tierName m gw nid ref =
          (db, .ok ⟨txn.orange_money_pay_url, txn.id, "pending",
                    alreadyPendingMessage tier.name⟩)) := by
  constructor
  · intro op uid tid hinv
    rcases applyOp_txns_cases db op with heq | ⟨tid', f, heq, hstep⟩ |
      ⟨txn, tier, heq, _hmem, _hid, _hprice, hst, _hurl, hnone⟩
    · unfold pendingFor
      rw [heq]
      exact hinv uid tid
    · unfold pendingFor
      rw [heq, List.countP_map]
      refine le_trans (List.countP_mono_left ?_) (hinv uid tid)
      intro t _ hp
      simp only [Function.comp_apply] at hp
      by_cases hid : (t.id == tid') = true
      · rw [if_pos hid] at hp
        simp only [Bool.and_eq_true, beq_iff_eq] at hp ⊢
        rcases hstep t with ⟨hu, htr, _, hs⟩
        exact ⟨⟨hu.symm.trans hp.1.1, htr.symm.trans hp.1.2⟩, hs hp.2⟩
      · rw [if_neg hid] at hp
        exact hp
    · unfold pendingFor
      rw [heq, List.countP_append]
      by_cases huid : txn.user_id = uid
      · by_cases htid : txn.tier_id = tid
        · have hzero : List.countP (fun t =>
              t.user_id == uid && t.tier_id == tid && t.status == TxnStatus.pending)
              db.transactions = 0 := by
            apply List.countP_eq_zero.mpr
            intro a ha hpa
            have hnone' := List.find?_eq_none.mp hnone a ha
            apply hnone'
            simp only [Bool.and_eq_true, beq_iff_eq] at hpa ⊢
            exact ⟨⟨hpa.1.1.trans huid.symm, hpa.1.2.trans htid.symm⟩, hpa.2⟩
          rw [hzero]
          have : List.countP (fun t =>
              t.user_id == uid && t.tier_id == tid && t.status == TxnStatus.pending)
              [txn] ≤ 1 := by
            refine le_trans (List.countP_le_length _) ?_
            simp
          omega
        · have : List.countP (fun t =>
              t.user_id == uid && t.tier_id == tid && t.status == TxnStatus.pending)
              [txn] = 0 := by
            apply List.countP_eq_zero.mpr
            intro a ha hpa
            simp only [List.mem_singleton] at ha
            subst ha
            simp only [Bool.and_eq_true, beq_iff_eq] at hpa
            exact htid hpa.1.2
          rw [this, Nat.add_zero]
          exact hinv uid tid
      · have : List.countP (fun t =>
            t.user_id == uid && t.tier_id == tid && t.status == TxnStatus.pending)
            [txn] = 0 := by
          apply List.countP_eq_zero.mpr
          intro a ha hpa
          simp only [List.mem_singleton] at ha
          subst ha
          simp only [Bool.and_eq_true, beq_iff_eq] at hpa
          exact huid hpa.1.1
        rw [this, Nat.add_zero]
        exact hinv uid tid
  · intro uid tierName m gw nid ref tier txn ht hp hfound
    unfold initiate_subscription
    rw [ht]
    dsimp only
    rw [if_neg hp, hfound]

theorem spec_C5_pending_dedup_witness :
    initiate_subscription dbPollEx 1 "basic" .manual .unavailable 99 "PD-X" =
      (dbPollEx, .ok ⟨txnOMEx.orange_money_pay_url, txnOMEx.id, "pending",
                      alreadyPendingMessage tierBasicEx.name⟩) :=
  (spec_C5_pending_dedup dbPollEx).2 1 "basic" .manual .unavailable 99 "PD-X"
    tierBasicEx txnOMEx rfl (by decide) rfl

-- ----------------------------------------------------------------
-- C6 — status-inquiry poll and gateway failure
-- ----------------------------------------------------------------

/-- C6 counterexample: for a gateway-initiated pending transaction, a
token-acquisition failure during the poll RAISES a gateway error to the
caller (`_get_access_token`'s `HTTPException(502)` is not a
`requests.RequestException`, so `check_transaction_status` does not catch
it) instead of returning the last known store status. The stored state is
nevertheless unchanged. -/
theorem spec_C6_counterexample :
    check_payment_status dbPollEx 1 10 .authError 100 =
      (dbPollEx, .error .gatewayError) := by
  decide

/-- C6 amended: for a gateway-initiated pending transaction, a transport
failure of the `transactionstatus` call itself is caught — the poll yields
UNKNOWN, no error reaches the caller, the store is unchanged, and the
inquiry falls back to the last known store status; a failure of the OAuth
token fetch, however, raises a gateway error to the caller (still leaving
the store unchanged). -/
theorem spec_C6_poll_fallback (db : DB) (uid txnId now : Nat)
    (txn : Transaction) (oid : String)
    (hfind : db.transactions.find? (fun t => t.id == txnId && t.user_id == uid) =
      some txn)
    (hm : txn.payment_method = .orange_money)
    (hs : txn.status = .pending)
    (ho : txn.orange_money_order_id = some oid) :
    check_payment_status db uid txnId .requestError now =
      (db, .ok (defaultStatusResponse db txn)) ∧
    check_payment_status db uid txnId .authError now =
      (db, .error .gatewayError) := by
  constructor
  · unfold check_payment_status
    rw [hfind]
    dsimp only
    rw [hm, hs, ho]
    dsimp only [check_transaction_status]
    rw [if_neg (by decide), if_neg (by decide)]
  · unfold check_payment_status
    rw [hfind]
    dsimp only
    rw [hm, hs, ho]
    dsimp only [check_transaction_status]

theorem spec_C6_poll_fallback_witness :
    check_payment_status dbPollEx 1 10 .requestError 100 =
      (dbPollEx, .ok (defaultStatusResponse dbPollEx txnOMEx)) ∧
    check_payment_status dbPollEx 1 10 .authError 100 =
      (dbPollEx, .error .gatewayError) :=
  spec_C6_poll_fallback dbPollEx 1 10 100 txnOMEx "PD-1" rfl rfl rfl rfl

-- ----------------------------------------------------------------
-- C4 — expiry enforcement called twice
-- ----------------------------------------------------------------

theorem getUser_self_beq {db : DB} {uid : Nat} {u : User}
    (hu : getUser db uid = some u) : (u.id == uid) = true := by
  unfold getUser at hu
  have h2 := List.find?_some hu
  simpa using h2

theorem getTierByName_name {db : DB} {name : String} {tier : Tier}
    (h : getTierByName db name = some tier) : tier.name = name := by
  unfold getTierByName at h
  have h2 := List.find?_some h
  simpa using h2

theorem getTierById_of_mem_nodup {db : DB} {t : Tier}
    (hnodup : (db.tiers.map Tier.id).Nodup) (hmem : t ∈ db.tiers) :
    getTierById db t.id = some t := by
  cases hfind : getTierById db t.id with
  | none =>
    exfalso
    unfold getTierById at hfind
    exact absurd (by simp : ((fun x => x.id == t.id) t) = true)
      (List.find?_eq_none.mp hfind t hmem)
  | some t2 =>
    unfold getTierById at hfind
    have h2 := List.find?_some hfind
    have hm2 := List.mem_of_find?_eq_some hfind
    have heq : t2 = t := tier_id_inj hnodup hm2 hmem (by simpa using h2)
    rw [heq]

/-- C4 counterexample: a user on a paid tier whose expiry (50) has passed
(now = 100): the first enforcement call downgrades and reports
`was_downgraded = true`; the immediate second call reports
`was_downgraded = false`, so the two calls do NOT produce identical
results. -/
theorem spec_C4_counterexample :
    ((check_and_enforce_subscription dbStackEx 1 100).map
        (fun p => p.2.was_downgraded) = some true) ∧
    (((check_and_enforce_subscription dbStackEx 1 100).bind (fun p =>
        check_and_enforce_subscription p.1 1 100)).map
        (fun p => p.2.was_downgraded) = some false) := by
  decide

/-- C4 amended: the second of two consecutive enforcement calls (no elapsed
time) is a read-only no-op — it writes nothing (the store it returns is the
store it was given) — and agrees with the first call on the effective tier,
the active flag and the expiry; the full results are identical exactly when
the first call performed no downgrade.  When the first call downgraded, the
second result differs only in the `was_downgraded` flag (and the
`previous_tier` it carries). -/
theorem spec_C4_enforce_idempotent (db : DB) (uid now : Nat) (db₁ : DB)
    (r₁ : EnforceResult)
    (hnodup : (db.tiers.map Tier.id).Nodup)
    (h1 : check_and_enforce_subscription db uid now = some (db₁, r₁)) :
    ∃ r₂, check_and_enforce_subscription db₁ uid now = some (db₁, r₂) ∧
      r₂.tier = r₁.tier ∧ r₂.is_active = r₁.is_active ∧
      r₂.expires_at = r₁.expires_at ∧
      (r₁.was_downgraded = false → r₂ = r₁) := by
  unfold check_and_enforce_subscription at h1
  cases hu : getUser db uid <;> rw [hu] at h1 <;> dsimp only at h1
  · cases h1
  case some u =>
    cases htier : getTierById db u.current_tier_id <;> rw [htier] at h1 <;>
      dsimp only at h1
    · cases h1
    case some tier =>
      by_cases hfree : tier.name = "free"
      · rw [if_pos hfree] at h1
        simp only [Option.some.injEq, Prod.mk.injEq] at h1
        obtain ⟨rfl, rfl⟩ := h1
        refine ⟨_, ?_, rfl, rfl, rfl, fun _ => rfl⟩
        unfold check_and_enforce_subscription
        rw [hu]
        dsimp only
        rw [htier]
        dsimp only
        rw [if_pos hfree]
      · rw [if_neg hfree] at h1
        cases hexp : u.subscription_expires_at <;> rw [hexp] at h1 <;>
          dsimp only at h1
        · simp only [Option.some.injEq, Prod.mk.injEq] at h1
          obtain ⟨rfl, rfl⟩ := h1
          refine ⟨_, ?_, rfl, rfl, rfl, fun _ => rfl⟩
          unfold check_and_enforce_subscription
          rw [hu]
          dsimp only
          rw [htier]
          dsimp only
          rw [if_neg hfree, hexp]
        next e =>
          by_cases hlt : now > e
          · rw [if_pos hlt] at h1
            cases hfreet : getTierByName db "free" <;> rw [hfreet] at h1 <;>
              dsimp only at h1
            · cases h1
            next ft =>
              simp only [Option.some.injEq, Prod.mk.injEq] at h1
              obtain ⟨rfl, rfl⟩ := h1
              have hftname : ft.name = "free" := getTierByName_name hfreet
              have hftmem : ft ∈ db.tiers := List.mem_of_find?_eq_some hfreet
              have hu2 : getUser (updateUser db uid (fun v =>
                  { v with current_tier_id := ft.id,
                           subscription_expires_at := none })) uid =
                  some { u with current_tier_id := ft.id,
                                subscription_expires_at := none } := by
                rw [getUser_updateUser db uid uid (fun v =>
                      { v with current_tier_id := ft.id,
                               subscription_expires_at := none })
                      (fun v => rfl), hu]
                have hid : u.id = uid := by simpa using getUser_self_beq hu
                simp [hid]
              refine ⟨⟨ft, true, none, false, none⟩, ?_, rfl, rfl, rfl,
                fun habs => nomatch habs⟩
              unfold check_and_enforce_subscription
              rw [hu2]
              dsimp only
              have htier2 : getTierById (updateUser db uid (fun v =>
                  { v with current_tier_id := ft.id,
                           subscription_expires_at := none })) ft.id =
                  some ft := getTierById_of_mem_nodup hnodup hftmem
              rw [htier2]
              dsimp only
              rw [if_pos hftname]
          · rw [if_neg hlt] at h1
            simp only [Option.some.injEq, Prod.mk.injEq] at h1
            obtain ⟨rfl, rfl⟩ := h1
            refine ⟨_, ?_, rfl, rfl, rfl, fun _ => rfl⟩
            unfold check_and_enforce_subscription
            rw [hu]
            dsimp only
            rw [htier]
            dsimp only
            rw [if_neg hfree, hexp]
            dsimp only
            rw [if_neg hlt]

theorem spec_C4_enforce_idempotent_witness :
    ∃ r₂, check_and_enforce_subscription
        (updateUser dbStackEx 1 (fun v =>
          { v with current_tier_id := tierFreeEx.id,
                   subscription_expires_at := none })) 1 100 =
        some (updateUser dbStackEx 1 (fun v =>
          { v with current_tier_id := tierFreeEx.id,
                   subscription_expires_at := none }), r₂) ∧
      r₂.tier = (⟨tierFreeEx, true, none, true, some "basic"⟩ : EnforceResult).tier ∧
      r₂.is_active = (⟨tierFreeEx, true, none, true, some "basic"⟩ : EnforceResult).is_active ∧
      r₂.expires_at = (⟨tierFreeEx, true, none, true, some "basic"⟩ : EnforceResult).expires_at ∧
      ((⟨tierFreeEx, true, none, true, some "basic"⟩ : EnforceResult).was_downgraded = false →
        r₂ = ⟨tierFreeEx, true, none, true, some "basic"⟩) :=
  spec_C4_enforce_idempotent dbStackEx 1 100 _ _ (by decide) (by decide)

-- ----------------------------------------------------------------
-- C9 — free tier ⇒ null expiry, preserved by every mutation
-- ----------------------------------------------------------------

/-- Catalog facts the system maintains: the free tier is priced zero, tier
ids are unique, and every stored transaction is for a non-zero-priced tier
(initiation rejects zero-priced tiers, so only paid tiers ever get
transactions). -/
def goodCatalog (db : DB) : Prop :=
  (∀ t ∈ db.tiers, t.name = "free" → t.price_pula = 0) ∧
  (db.tiers.map Tier.id).Nodup ∧
  (∀ txn ∈ db.transactions, ∀ t ∈ db.tiers, t.id = txn.tier_id →
    ¬ t.price_pula = 0)

/-- The C9 invariant: every user whose current tier is (a tier named)
free has a null `subscription_expires_at`. -/
def freeTierNullExpiry (db : DB) : Prop :=
  ∀ u ∈ db.users, ∀ t ∈ db.tiers, t.id = u.current_tier_id →
    t.name = "free" → u.subscription_expires_at = none

/-- C9: the free-tier-null-expiry invariant (together with the catalog
facts) is preserved by every store-mutating handler; in particular the
expiry-driven downgrade clears `subscription_expires_at` in the same write
that reassigns the user to the free tier, and activation writes always
target a paid (hence non-free) tier. -/
theorem spec_C9_free_null_expiry (db : DB) (op : Op)
    (hg : goodCatalog db) (hf : freeTierNullExpiry db) :
    freeTierNullExpiry (applyOp db op) ∧ goodCatalog (applyOp db op) := by
  obtain ⟨hzero, hnodup, hpaid⟩ := hg
  have htiers := applyOp_tiers db op
  constructor
  · rcases applyOp_users_cases db op with husers | ⟨uid, tid, husers⟩ |
      ⟨uid, tid, e, husers, txn, hmem, htid⟩
    · intro u hu t ht hid hname
      rw [husers] at hu
      rw [htiers] at ht
      exact hf u hu t ht hid hname
    · intro u hu t ht hid hname
      rw [husers] at hu
      rw [htiers] at ht
      rcases List.mem_map.mp hu with ⟨u0, hu0, rfl⟩
      by_cases h0 : (u0.id == uid) = true
      · rw [if_pos h0]
      · rw [if_neg h0] at hid ⊢
        exact hf u0 hu0 t ht hid hname
    · intro u hu t ht hid hname
      rw [husers] at hu
      rw [htiers] at ht
      rcases List.mem_map.mp hu with ⟨u0, hu0, rfl⟩
      by_cases h0 : (u0.id == uid) = true
      · rw [if_pos h0] at hid ⊢
        exfalso
        have hid2 : t.id = tid := hid
        have hpz := hzero t ht hname
        exact hpaid txn hmem t ht (hid2.trans htid.symm) hpz
      · rw [if_neg h0] at hid ⊢
        exact hf u0 hu0 t ht hid hname
  · refine ⟨?_, ?_, ?_⟩
    · intro t ht
      rw [htiers] at ht
      exact hzero t ht
    · rw [htiers]
      exact hnodup
    · rcases applyOp_txns_cases db op with htx | ⟨tid, f, htx, hstep⟩ |
        ⟨txn, tier, htx, hmem, hid, hprice, _, _, _⟩
      · intro a ha t ht hid'
        rw [htx] at ha
        rw [htiers] at ht
        exact hpaid a ha t ht hid'
      · intro a ha t ht hid'
        rw [htx] at ha
        rw [htiers] at ht
        rcases List.mem_map.mp ha with ⟨a0, ha0, rfl⟩
        by_cases h0 : (a0.id == tid) = true
        · rw [if_pos h0] at hid'
          exact hpaid a0 ha0 t ht (hid'.trans (hstep a0).2.1)
        · rw [if_neg h0] at hid'
          exact hpaid a0 ha0 t ht hid'
      · intro a ha t ht hid'
        rw [htx] at ha
        rw [htiers] at ht
        rcases List.mem_append.mp ha with ha' | ha'
        · exact hpaid a ha' t ht hid'
        · rw [List.mem_singleton] at ha'
          subst ha'
          have heqt : t = tier := tier_id_inj hnodup ht hmem (hid'.trans hid.symm)
          rw [heqt]
          exact hprice

theorem spec_C9_free_null_expiry_witness :
    freeTierNullExpiry (applyOp dbPollEx (.webhook cbEx 100)) ∧
    goodCatalog (applyOp dbPollEx (.webhook cbEx 100)) :=
  spec_C9_free_null_expiry dbPollEx (.webhook cbEx 100)
    (by unfold goodCatalog; decide) (by unfold freeTierNullExpiry; decide)

-- ----------------------------------------------------------------
-- C10 — stored pay url is never written, so dedup returns payment_url none
-- ----------------------------------------------------------------

/-- The C10 invariant: no stored transaction has `orange_money_pay_url`
set (no code path ever writes that column — initiation stores only
`orange_money_pay_token`). -/
def payUrlNeverWritten (db : DB) : Prop :=
  ∀ t ∈ db.transactions, t.orange_money_pay_url = none

/-- C10: every handler preserves "no stored `orange_money_pay_url`", and
therefore the duplicate-transaction branch of initiation — which answers
with the STORED `orange_money_pay_url` — always responds with
`payment_url = none`, even for a gateway-initiated transaction whose
original initiation received a redirect URL. -/
theorem spec_C10_dedup_pay_url_none (db : DB) :
    (∀ op, payUrlNeverWritten db → payUrlNeverWritten (applyOp db op)) ∧
    (∀ uid tierName m gw nid ref tier txn,
        payUrlNeverWritten db →
        getTierByName db tierName = some tier →
        ¬ tier.price_pula = 0 →
        findPendingTxn db uid tier.id = some txn →
        initiate_subscription db uid tierName m gw nid ref =
          (db, .ok ⟨none, txn.id, "pending", alreadyPendingMessage tier.name⟩)) := by
  constructor
  · intro op hinv
    rcases applyOp_txns_cases db op with htx | ⟨tid, f, htx, hstep⟩ |
      ⟨txn, tier, htx, _, _, _, _, hurl, _⟩
    · intro a ha
      rw [htx] at ha
      exact hinv a ha
    · intro a ha
      rw [htx] at ha
      rcases List.mem_map.mp ha with ⟨a0, ha0, rfl⟩
      by_cases h0 : (a0.id == tid) = true
      · rw [if_pos h0]
        exact ((hstep a0).2.2.1).trans (hinv a0 ha0)
      · rw [if_neg h0]
        exact hinv a0 ha0
    · intro a ha
      rw [htx] at ha
      rcases List.mem_append.mp ha with ha' | ha'
      · exact hinv a ha'
      · rw [List.mem_singleton] at ha'
        subst ha'
        exact hurl
  · intro uid tierName m gw nid ref tier txn hinv ht hp hfound
    have hurl : txn.orange_money_pay_url = none :=
      hinv txn (mem_of_findPendingTxn hfound)
    unfold initiate_subscription
    rw [ht]
    dsimp only
    rw [if_neg hp, hfound]
    dsimp only
    rw [hurl]

theorem spec_C10_dedup_pay_url_none_witness :
    initiate_subscription dbPollEx 1 "basic" .orange_money
        (.ok (some "https://om.example/pay") "tok") 77 "PD-Z" =
      (dbPollEx, .ok ⟨none, txnOMEx.id, "pending",
                      alreadyPendingMessage tierBasicEx.name⟩) :=
  (spec_C10_dedup_pay_url_none dbPollEx).2 1 "basic" .orange_money
    (.ok (some "https://om.example/pay") "tok") 77 "PD-Z"
    tierBasicEx txnOMEx (by unfold payUrlNeverWritten; decide) rfl (by decide) rfl
